import Mathlib

/-!
Verification of the solar-panel filtering page
(`src/pages/07_solar_panel.py`) of the Solara WebGIS demo.

We shallowly embed the data model of the page and operations:

* a `GeoDataFrame` is a list of named columns together with rows of cell
  values (numbers, strings, or geometries) and an optional CRS string;
* `calculate_filtered_data` mirrors the filter function (lines 72-97 of the
  source): empty table short-circuits, a missing `area_m2` column is a
  `KeyError` caught and answered with the original table, a non-numeric
  area column makes the pandas comparison raise and is likewise answered
  with the original table, and otherwise the rows with area at least the
  threshold are kept (in order) and four style columns are written;
* `get_initial_data` mirrors the loader (lines 33-61): the outcome of the
  file read is a `ReadResult` parameter, and both the missing-file and the
  read-error case produce the fallback empty frame and no bounding box;
* `sliderMax` mirrors the slider maximum computed in `Page`
  (lines 193-216);
* `GeoDataFrame.to_json` mirrors the GeoJSON `FeatureCollection`
  serialization used by the download button;
* `runFiltered` replays `calculate_filtered_data` against an explicit heap
  of frames, making pandas allocation (`boolean mask selection`, `.copy()`)
  and in-place column assignment explicit, so that non-mutation of the
  process-wide frame is a real statement.

Machine floats are modelled as rationals; all comparisons involved are
order comparisons, which agree with the float ones on the (finite) values
the page manipulates.
-/

namespace SolarDemo

/-- A cell of a (geo)data frame: a numeric value, a string value, or a
geometry given by its list of vertices. -/
inductive CellValue where
  | num (q : ℚ)
  | str (s : String)
  | geom (pts : List (ℚ × ℚ))
deriving DecidableEq, Repr

/-- Shallow embedding of a `geopandas.GeoDataFrame`: the list of column
names, the rows (each row a list of cells, positionally matching the
columns), and the optional CRS. -/
structure GeoDataFrame where
  columns : List String
  rows : List (List CellValue)
  crs : Option String
deriving DecidableEq, Repr

/-- `gpd.GeoDataFrame()`: the fully empty frame returned on the
empty-input fast path of `calculate_filtered_data` (line 77). -/
def emptyGDF : GeoDataFrame := ⟨[], [], none⟩

/-- The fallback frame built by `get_initial_data` (lines 55-59):
`gpd.GeoDataFrame(pd.DataFrame(\x7barea_m2: []\x7d), geometry=[],
crs=EPSG:4326)` — columns `area_m2` and `geometry`, no rows,
CRS `EPSG:4326`. -/
def fallbackGDF : GeoDataFrame :=
  ⟨["area_m2", "geometry"], [], some "EPSG:4326"⟩

/-- Index of the first column with the given name (pandas column lookup). -/
def colIdx : List String → String → Option ℕ
  | [], _ => none
  | c :: cs, s => if c = s then some 0 else (colIdx cs s).map (· + 1)

/-- The numeric content of a cell, if any. -/
def CellValue.asNum : CellValue → Option ℚ
  | .num q => some q
  | _ => none

/-- The numeric value stored in row `r` at column index `i`, if the cell
exists and is numeric. -/
def rowAreaQ (i : ℕ) (r : List CellValue) : Option ℚ :=
  r[i]?.bind CellValue.asNum

/-- The four style column names written by lines 85-88 of the source. -/
def styleNames : List String := ["fill", "stroke", "stroke-width", "fill-opacity"]

/-- The four style values written by lines 85-88 of the source. -/
def styleVals : List CellValue :=
  [.str "#FFD700", .str "#FF4500", .num 2, .num (7 / 10)]

/-- Pandas scalar column assignment `df[name] = v`: overwrite the column
if it exists, otherwise append it. -/
def setCol (g : GeoDataFrame) (name : String) (v : CellValue) : GeoDataFrame :=
  match colIdx g.columns name with
  | some i => { g with rows := g.rows.map (fun r => r.set i v) }
  | none =>
      { columns := g.columns ++ [name]
        rows := g.rows.map (fun r => r ++ [v])
        crs := g.crs }

/-- The four style assignments of lines 85-88, in source order. -/
def addStyle (g : GeoDataFrame) : GeoDataFrame :=
  setCol (setCol (setCol (setCol g "fill" (.str "#FFD700"))
    "stroke" (.str "#FF4500")) "stroke-width" (.num 2)) "fill-opacity" (.num (7 / 10))

/-- Embedding of `calculate_filtered_data` (lines 72-97).

* empty state → return `gpd.GeoDataFrame()` immediately (lines 76-77);
* `area_m2` column missing → the pandas getitem raises `KeyError`, caught
  at line 92, the original frame is returned (line 94);
* `area_m2` column present but holding a non-numeric cell → the pandas
  comparison `>=` raises, caught by the generic handler at line 95, the
  original frame is returned;
* otherwise keep the rows whose area is `≥ min_area_value` (line 81,
  preserving order, columns and CRS) and write the four style columns
  (lines 85-88). -/
def calculate_filtered_data (state : GeoDataFrame) (min_area_value : ℚ) : GeoDataFrame :=
  if state.rows.isEmpty then emptyGDF
  else
    match colIdx state.columns "area_m2" with
    | none => state
    | some i =>
        if state.rows.all (fun r => (rowAreaQ i r).isSome) then
          addStyle { state with
            rows := state.rows.filter (fun r => decide (min_area_value ≤ (rowAreaQ i r).getD 0)) }
        else state

/-- Outcome of the startup file read in `get_initial_data`: the path does
not exist, `gpd.read_file` raises, or it returns a frame. -/
inductive ReadResult where
  | missing
  | readError
  | ok (g : GeoDataFrame)

/-- Bounding box `(minx, miny, maxx, maxy)`. -/
def BboxType : Type := ℚ × ℚ × ℚ × ℚ

/-- All geometry vertices stored in a row. -/
def rowPoints (r : List CellValue) : List (ℚ × ℚ) :=
  r.foldr (fun c acc => match c with | .geom pts => pts ++ acc | _ => acc) []

/-- All geometry vertices stored in a frame. -/
def allPoints (g : GeoDataFrame) : List (ℚ × ℚ) :=
  g.rows.foldr (fun r acc => rowPoints r ++ acc) []

/-- `gdf.total_bounds`: the minimal axis-aligned box around all
geometries. -/
def total_bounds (g : GeoDataFrame) : BboxType :=
  match allPoints g with
  | [] => (0, 0, 0, 0)
  | p :: ps =>
      ps.foldl (fun b q => (min b.1 q.1, min b.2.1 q.2, max b.2.2.1 q.1, max b.2.2.2 q.2))
        (p.1, p.2, p.1, p.2)

/-- Embedding of `get_initial_data` (lines 33-61). The file-system
outcome is the `ReadResult` argument; the function itself is total — no
exception escapes.

* successful read: return the frame, with its bounds when non-empty;
* missing file or read error: return the fallback frame and no bounds. -/
def get_initial_data (fs : ReadResult) : GeoDataFrame × Option BboxType :=
  match fs with
  | .ok d => (d, if d.rows.isEmpty then none else some (total_bounds d))
  | _ => (fallbackGDF, none)

/-- `series.max()`: maximum of the numeric values in column `i`. -/
def columnMax (g : GeoDataFrame) (i : ℕ) : ℚ :=
  match g.rows.filterMap (rowAreaQ i) with
  | [] => 0
  | q :: qs => qs.foldl max q

/-- The slider maximum computed in `Page` (lines 207-210):
`500.0` by default, replaced by `area_m2.max() * 1.1` when the frame is
non-empty and has the `area_m2` column. -/
def sliderMax (g : GeoDataFrame) : ℚ :=
  if 0 < g.rows.length then
    match colIdx g.columns "area_m2" with
    | some i => columnMax g i * (11 / 10)
    | none => 500
  else 500

/-- The `(min, step, max)` triple passed to `solara.SliderFloat`
(lines 221-229): `min=0.0`, `step=10.0`, `max=max_area`. -/
def sliderParams (g : GeoDataFrame) : ℚ × ℚ × ℚ :=
  (0, 10, sliderMax g)

/-- JSON values, for the GeoJSON serialization of the download button. -/
inductive Json where
  | null
  | str (s : String)
  | num (q : ℚ)
  | arr (elems : List Json)
  | obj (fields : List (String × Json))

/-- Serialize one cell. -/
def cellToJson : CellValue → Json
  | .num q => .num q
  | .str s => .str s
  | .geom pts =>
      .obj [("type", .str "Polygon"),
            ("coordinates", .arr (pts.map (fun p => .arr [.num p.1, .num p.2])))]

/-- The `properties` object of one GeoJSON feature: every non-geometry
column of the row. -/
def rowProperties (cols : List String) (r : List CellValue) : List (String × Json) :=
  (cols.zip r).filterMap
    (fun p => if p.1 = "geometry" then none else some (p.1, cellToJson p.2))

/-- The `geometry` member of one GeoJSON feature. -/
def rowGeometry (cols : List String) (r : List CellValue) : Json :=
  match (cols.zip r).findSome?
      (fun p => if p.1 = "geometry" then some (cellToJson p.2) else none) with
  | some j => j
  | none => .null

/-- One GeoJSON feature. -/
def rowFeature (cols : List String) (r : List CellValue) : Json :=
  .obj [("type", .str "Feature"),
        ("properties", .obj (rowProperties cols r)),
        ("geometry", rowGeometry cols r)]

/-- `gdf.to_json()`: the GeoJSON `FeatureCollection` offered by the
download button (lines 238-248). -/
def GeoDataFrame.to_json (g : GeoDataFrame) : Json :=
  .obj [("type", .str "FeatureCollection"),
        ("features", .arr (g.rows.map (rowFeature g.columns)))]

/-- Replay of `calculate_filtered_data` against an explicit heap of
frames (frame identity = heap index). Pandas boolean-mask selection
allocates a fresh frame, `.copy()` (line 81) allocates another, and the
four column assignments of lines 85-88 mutate the copy in place. Returns
the final heap and the index of the frame handed back to the caller. -/
def runFiltered (h : List GeoDataFrame) (gid : ℕ) (t : ℚ) : List GeoDataFrame × ℕ :=
  match h[gid]? with
  | none => (h, gid)
  | some g =>
    if g.rows.isEmpty then (h ++ [emptyGDF], h.length)
    else
      match colIdx g.columns "area_m2" with
      | none => (h, gid)
      | some i =>
          if g.rows.all (fun r => (rowAreaQ i r).isSome) then
            let sel : GeoDataFrame :=
              { g with rows := g.rows.filter (fun r => decide (t ≤ (rowAreaQ i r).getD 0)) }
            let h2 := (h ++ [sel]) ++ [sel]
            let cpId := (h ++ [sel]).length
            ((h2.set cpId (addStyle sel)), cpId)
          else (h, gid)

/-- The frame allocated by the boolean-mask selection of line 81,
`all_solar_data.value[all_solar_data.value[area_m2] >= min_area_value]`. -/
def selFrame (g : GeoDataFrame) (t : ℚ) (i : ℕ) : GeoDataFrame :=
  ⟨g.columns, g.rows.filter (fun r => decide (t ≤ (rowAreaQ i r).getD 0)), g.crs⟩

/-- A three-record table with areas `[5, 15, 25]` (the scenario of the spec). -/
def demoGDF : GeoDataFrame :=
  ⟨["area_m2", "geometry"],
   [[.num 5, .geom [(0, 0)]], [.num 15, .geom [(1, 1)]], [.num 25, .geom [(2, 2)]]],
   some "EPSG:4326"⟩

/-- A non-empty table with no `area_m2` column. -/
def noAreaGDF : GeoDataFrame := ⟨["name"], [[.str "a"]], none⟩

/-! Basic lemmas about column lookup -/

theorem colIdx_eq_none (cs : List String) (s : String) (h : s ∉ cs) :
    colIdx cs s = none := by
  induction cs with
  | nil => rfl
  | cons c cs ih =>
    rw [List.mem_cons, not_or] at h
    have hc : ¬ c = s := fun hc => h.1 hc.symm
    simp [colIdx, hc, ih h.2]

theorem not_mem_of_colIdx_eq_none (cs : List String) (s : String)
    (h : colIdx cs s = none) : s ∉ cs := by
  induction cs with
  | nil => simp
  | cons c cs ih =>
    rw [colIdx] at h
    by_cases hc : c = s
    · rw [if_pos hc] at h; exact absurd h (by simp)
    · rw [if_neg hc] at h
      intro hmem
      rcases List.mem_cons.mp hmem with h1 | h1
      · exact hc h1.symm
      · cases hcs : colIdx cs s with
        | none => exact ih hcs h1
        | some j => rw [hcs] at h; exact absurd h (by simp)

theorem colIdx_lt_length {cs : List String} {s : String} {i : ℕ}
    (h : colIdx cs s = some i) : i < cs.length := by
  induction cs generalizing i with
  | nil => cases h
  | cons c cs ih =>
    rw [colIdx] at h
    by_cases hc : c = s
    · rw [if_pos hc] at h
      cases h
      simp
    · rw [if_neg hc] at h
      cases hcs : colIdx cs s with
      | none => rw [hcs] at h; cases h
      | some j =>
        rw [hcs] at h
        simp only [Option.map_some'] at h
        injection h with h
        have := ih hcs
        simp only [List.length_cons]
        omega

theorem colIdx_append_left {cs : List String} {s : String} {i : ℕ} (l : List String)
    (h : colIdx cs s = some i) : colIdx (cs ++ l) s = some i := by
  induction cs generalizing i with
  | nil => cases h
  | cons c cs ih =>
    rw [List.cons_append, colIdx]
    rw [colIdx] at h
    by_cases hc : c = s
    · rw [if_pos hc] at h ⊢; exact h
    · rw [if_neg hc] at h ⊢
      cases hcs : colIdx cs s with
      | none => rw [hcs] at h; cases h
      | some j => rw [ih hcs]; rw [hcs] at h; exact h

theorem colIdx_append_right (cs l : List String) (s : String) (h : s ∉ cs) :
    colIdx (cs ++ l) s = (colIdx l s).map (cs.length + ·) := by
  induction cs with
  | nil => cases hcl : colIdx l s <;> simp [hcl]
  | cons c cs ih =>
    rw [List.mem_cons, not_or] at h
    have hc : ¬ c = s := fun hc => h.1 hc.symm
    rw [List.cons_append, colIdx, if_neg hc, ih h.2]
    cases hcl : colIdx l s with
    | none => simp
    | some j => simp; omega

/-! Lemmas about column assignment and the style columns -/

theorem setCol_not_mem (g : GeoDataFrame) (name : String) (v : CellValue)
    (h : name ∉ g.columns) :
    setCol g name v = ⟨g.columns ++ [name], g.rows.map (fun r => r ++ [v]), g.crs⟩ := by
  simp [setCol, colIdx_eq_none _ _ h]

theorem setCol_rows_length (g : GeoDataFrame) (name : String) (v : CellValue) :
    (setCol g name v).rows.length = g.rows.length := by
  rw [setCol]
  cases colIdx g.columns name <;> simp

theorem addStyle_rows_length (g : GeoDataFrame) :
    (addStyle g).rows.length = g.rows.length := by
  simp [addStyle, setCol_rows_length]

theorem addStyle_no_style (g : GeoDataFrame) (h : ∀ n ∈ styleNames, n ∉ g.columns) :
    addStyle g = ⟨g.columns ++ styleNames, g.rows.map (fun r => r ++ styleVals), g.crs⟩ := by
  have h1 : "fill" ∉ g.columns := h _ (by simp [styleNames])
  have h2 : "stroke" ∉ g.columns := h _ (by simp [styleNames])
  have h3 : "stroke-width" ∉ g.columns := h _ (by simp [styleNames])
  have h4 : "fill-opacity" ∉ g.columns := h _ (by simp [styleNames])
  have h2' : "stroke" ∉ g.columns ++ ["fill"] := by
    simp only [List.mem_append, List.mem_singleton]
    rintro (hx | hx)
    · exact h2 hx
    · exact absurd hx (by decide)
  have h3' : "stroke-width" ∉ (g.columns ++ ["fill"]) ++ ["stroke"] := by
    simp only [List.mem_append, List.mem_singleton]
    rintro ((hx | hx) | hx)
    · exact h3 hx
    · exact absurd hx (by decide)
    · exact absurd hx (by decide)
  have h4' : "fill-opacity" ∉ ((g.columns ++ ["fill"]) ++ ["stroke"]) ++ ["stroke-width"] := by
    simp only [List.mem_append, List.mem_singleton]
    rintro (((hx | hx) | hx) | hx)
    · exact h4 hx
    · exact absurd hx (by decide)
    · exact absurd hx (by decide)
    · exact absurd hx (by decide)
  simp only [addStyle, setCol, colIdx_eq_none _ _ h1, colIdx_eq_none _ _ h2',
    colIdx_eq_none _ _ h3', colIdx_eq_none _ _ h4']
  rw [GeoDataFrame.mk.injEq]
  refine ⟨by simp [styleNames], ?_, rfl⟩
  simp only [List.map_map]
  apply List.map_congr_left
  intro r _
  simp [styleVals, Function.comp]

/-! The three non-main paths of the filter -/

theorem calc_filtered_of_empty (g : GeoDataFrame) (t : ℚ) (h : g.rows = []) :
    calculate_filtered_data g t = emptyGDF := by
  rw [calculate_filtered_data, if_pos (by simp [List.isEmpty_iff, h])]

theorem calc_filtered_of_no_column (g : GeoDataFrame) (t : ℚ)
    (hne : g.rows ≠ []) (hmiss : "area_m2" ∉ g.columns) :
    calculate_filtered_data g t = g := by
  rw [calculate_filtered_data, if_neg (by simp [List.isEmpty_iff, hne]),
    colIdx_eq_none _ _ hmiss]

theorem calc_filtered_of_nonnum (g : GeoDataFrame) (t : ℚ) (i : ℕ)
    (hne : g.rows ≠ []) (hi : colIdx g.columns "area_m2" = some i)
    (hnum : g.rows.all (fun r => (rowAreaQ i r).isSome) = false) :
    calculate_filtered_data g t = g := by
  have hne' : g.rows.isEmpty = false := by simp [List.isEmpty_iff, hne]
  simp [calculate_filtered_data, hne', hi, hnum]

theorem calc_filtered_main (g : GeoDataFrame) (t : ℚ) (i : ℕ)
    (hne : g.rows ≠ []) (hi : colIdx g.columns "area_m2" = some i)
    (hnum : g.rows.all (fun r => (rowAreaQ i r).isSome) = true) :
    calculate_filtered_data g t =
      addStyle ⟨g.columns,
        g.rows.filter (fun r => decide (t ≤ (rowAreaQ i r).getD 0)), g.crs⟩ := by
  have hne' : g.rows.isEmpty = false := by simp [List.isEmpty_iff, hne]
  simp [calculate_filtered_data, hne', hi, hnum]

/-! Further helper lemmas -/

theorem set_append_add (l₁ l₂ : List CellValue) (k : ℕ) (v : CellValue) :
    (l₁ ++ l₂).set (l₁.length + k) v = l₁ ++ l₂.set k v := by
  induction l₁ with
  | nil => simp
  | cons a l ih =>
    have h : (a :: l).length + k = (l.length + k) + 1 := by simp; omega
    rw [List.cons_append, h, List.set_cons_succ, ih, List.cons_append]

theorem setCol_some (cols : List String) (rows : List (List CellValue)) (c : Option String)
    (name : String) (v : CellValue) (i : ℕ) (h : colIdx cols name = some i) :
    setCol ⟨cols, rows, c⟩ name v = ⟨cols, rows.map (fun r => r.set i v), c⟩ := by
  simp [setCol, h]

/-- Writing the four style columns onto a frame that already carries them
(with the same values) changes nothing: each assignment overwrites the
column in place with the value it already has. -/
theorem addStyle_styled_noop (cols : List String) (F : List (List CellValue))
    (c : Option String)
    (hstyle : ∀ n ∈ styleNames, n ∉ cols)
    (hlen : ∀ r ∈ F, r.length = cols.length) :
    addStyle ⟨cols ++ styleNames, F.map (fun r => r ++ styleVals), c⟩ =
      ⟨cols ++ styleNames, F.map (fun r => r ++ styleVals), c⟩ := by
  have hidx : ∀ (n : String) (k : ℕ), n ∈ styleNames → colIdx styleNames n = some k →
      colIdx (cols ++ styleNames) n = some (cols.length + k) := by
    intro n k hn hk
    rw [colIdx_append_right cols styleNames n (hstyle n hn), hk]
    rfl
  have step : ∀ (k : ℕ) (v : CellValue), styleVals.set k v = styleVals →
      (F.map (fun r => r ++ styleVals)).map (fun r => r.set (cols.length + k) v) =
        F.map (fun r => r ++ styleVals) := by
    intro k v hv
    rw [List.map_map]
    apply List.map_congr_left
    intro r hr
    simp only [Function.comp_apply]
    rw [← hlen r hr, set_append_add, hv]
  have e1 : setCol ⟨cols ++ styleNames, F.map (fun r => r ++ styleVals), c⟩
      "fill" (.str "#FFD700") = ⟨cols ++ styleNames, F.map (fun r => r ++ styleVals), c⟩ := by
    rw [setCol_some (cols ++ styleNames) (F.map (fun r => r ++ styleVals)) c
      "fill" (.str "#FFD700") (cols.length + 0) (hidx "fill" 0 (by decide) (by decide))]
    rw [step 0 (.str "#FFD700") rfl]
  have e2 : setCol ⟨cols ++ styleNames, F.map (fun r => r ++ styleVals), c⟩
      "stroke" (.str "#FF4500") = ⟨cols ++ styleNames, F.map (fun r => r ++ styleVals), c⟩ := by
    rw [setCol_some (cols ++ styleNames) (F.map (fun r => r ++ styleVals)) c
      "stroke" (.str "#FF4500") (cols.length + 1) (hidx "stroke" 1 (by decide) (by decide))]
    rw [step 1 (.str "#FF4500") rfl]
  have e3 : setCol ⟨cols ++ styleNames, F.map (fun r => r ++ styleVals), c⟩
      "stroke-width" (.num 2) = ⟨cols ++ styleNames, F.map (fun r => r ++ styleVals), c⟩ := by
    rw [setCol_some (cols ++ styleNames) (F.map (fun r => r ++ styleVals)) c
      "stroke-width" (.num 2) (cols.length + 2) (hidx "stroke-width" 2 (by decide) (by decide))]
    rw [step 2 (.num 2) rfl]
  have e4 : setCol ⟨cols ++ styleNames, F.map (fun r => r ++ styleVals), c⟩
      "fill-opacity" (.num (7 / 10)) = ⟨cols ++ styleNames, F.map (fun r => r ++ styleVals), c⟩ := by
    rw [setCol_some (cols ++ styleNames) (F.map (fun r => r ++ styleVals)) c
      "fill-opacity" (.num (7 / 10)) (cols.length + 3) (hidx "fill-opacity" 3 (by decide) (by decide))]
    rw [step 3 (.num (7 / 10)) rfl]
  unfold addStyle
  rw [e1, e2, e3, e4]

/-! Claims -/

/-- C2: The data loader never raises: whatever the outcome of the file
read (file missing, or `gpd.read_file` raising), `get_initial_data` is a
total function that answers the failure cases with the fallback frame —
an empty table whose schema has the `area_m2` column and a geometry
column, with CRS `EPSG:4326` — paired with an absent (`none`) bounding
box. -/
theorem loader_fails_soft (fs : ReadResult)
    (h : fs = ReadResult.missing ∨ fs = ReadResult.readError) :
    get_initial_data fs = (fallbackGDF, none) ∧
    "area_m2" ∈ fallbackGDF.columns ∧
    "geometry" ∈ fallbackGDF.columns ∧
    fallbackGDF.crs = some "EPSG:4326" ∧
    fallbackGDF.rows = [] := by
  rcases h with h | h <;> subst h <;>
    exact ⟨rfl, by simp [fallbackGDF], by simp [fallbackGDF], rfl, rfl⟩

/-- Witness for C2 at the concrete input "file missing". -/
theorem loader_fails_soft_witness :
    get_initial_data ReadResult.missing = (fallbackGDF, none) ∧
    "area_m2" ∈ fallbackGDF.columns ∧
    "geometry" ∈ fallbackGDF.columns ∧
    fallbackGDF.crs = some "EPSG:4326" ∧
    fallbackGDF.rows = [] :=
  loader_fails_soft ReadResult.missing (Or.inl rfl)

/-- C3: On a non-empty table lacking the `area_m2` column, the filter
returns the original table unchanged (columns, rows and CRS identical),
for every threshold: the pandas `KeyError` is caught and answered with
the original frame. -/
theorem filter_missing_column (g : GeoDataFrame) (t : ℚ)
    (hne : g.rows ≠ []) (hmiss : "area_m2" ∉ g.columns) :
    calculate_filtered_data g t = g :=
  calc_filtered_of_no_column g t hne hmiss

/-- Witness for C3 at a concrete one-row table without the area column. -/
theorem filter_missing_column_witness :
    calculate_filtered_data noAreaGDF 10 = noAreaGDF :=
  filter_missing_column noAreaGDF 10 (by decide) (by decide)

/-- C4: On an empty table the filter returns the empty frame
`gpd.GeoDataFrame()` immediately, for every threshold; in particular the
filtered view has no rows. -/
theorem filter_empty_table (g : GeoDataFrame) (t : ℚ) (h : g.rows = []) :
    calculate_filtered_data g t = emptyGDF ∧
    (calculate_filtered_data g t).rows = [] := by
  refine ⟨calc_filtered_of_empty g t h, ?_⟩
  rw [calc_filtered_of_empty g t h]
  rfl

/-- Witness for C4 at the concrete fallback frame and threshold 42. -/
theorem filter_empty_table_witness :
    calculate_filtered_data fallbackGDF 42 = emptyGDF ∧
    (calculate_filtered_data fallbackGDF 42).rows = [] :=
  filter_empty_table fallbackGDF 42 rfl

/-- C1: On a non-empty table with a (numeric) `area_m2` column and
without pre-existing style columns, the rows of the filtered view are exactly
the rows whose area is `≥ t`, in the original relative order (each
carried over unchanged, extended only by the four appended style cells). -/
theorem filtered_rows_exact (g : GeoDataFrame) (t : ℚ) (i : ℕ)
    (hne : g.rows ≠ [])
    (hi : colIdx g.columns "area_m2" = some i)
    (hnum : g.rows.all (fun r => (rowAreaQ i r).isSome) = true)
    (hstyle : ∀ n ∈ styleNames, n ∉ g.columns) :
    (calculate_filtered_data g t).rows =
      (g.rows.filter (fun r => decide (t ≤ (rowAreaQ i r).getD 0))).map
        (fun r => r ++ styleVals) := by
  rw [calc_filtered_main g t i hne hi hnum,
    addStyle_no_style ⟨g.columns,
      g.rows.filter (fun r => decide (t ≤ (rowAreaQ i r).getD 0)), g.crs⟩ hstyle]

/-- Witness for C1: the scenario of the spec, areas `[5, 15, 25]`.
Threshold 10 keeps exactly the records with areas `[15, 25]` in order;
threshold 30 keeps none. -/
theorem filtered_rows_exact_witness :
    ((calculate_filtered_data demoGDF 10).rows =
      (demoGDF.rows.filter (fun r => decide ((10 : ℚ) ≤ (rowAreaQ 0 r).getD 0))).map
        (fun r => r ++ styleVals)) ∧
    (calculate_filtered_data demoGDF 10).rows.map (rowAreaQ 0) = [some 15, some 25] ∧
    (calculate_filtered_data demoGDF 30).rows = [] := by
  refine ⟨filtered_rows_exact demoGDF 10 0 (by decide) (by decide) (by decide) (by decide),
    ?_, ?_⟩
  · rw [filtered_rows_exact demoGDF 10 0 (by decide) (by decide) (by decide) (by decide)]
    decide
  · rw [filtered_rows_exact demoGDF 30 0 (by decide) (by decide) (by decide) (by decide)]
    decide

/-- C5: Raising the threshold never increases the filtered count, for
every table (on the degraded paths both sides coincide; on the main path
the filter predicate only gets stronger). -/
theorem filter_threshold_monotone (g : GeoDataFrame) (t1 t2 : ℚ) (h : t1 ≤ t2) :
    (calculate_filtered_data g t2).rows.length ≤
      (calculate_filtered_data g t1).rows.length := by
  by_cases hemp : g.rows = []
  · rw [calc_filtered_of_empty g t1 hemp, calc_filtered_of_empty g t2 hemp]
  · cases hidx : colIdx g.columns "area_m2" with
    | none =>
      have hm := not_mem_of_colIdx_eq_none _ _ hidx
      rw [calc_filtered_of_no_column g t1 hemp hm, calc_filtered_of_no_column g t2 hemp hm]
    | some i =>
      cases hnum : g.rows.all (fun r => (rowAreaQ i r).isSome) with
      | false =>
        rw [calc_filtered_of_nonnum g t1 i hemp hidx hnum,
          calc_filtered_of_nonnum g t2 i hemp hidx hnum]
      | true =>
        rw [calc_filtered_main g t1 i hemp hidx hnum,
          calc_filtered_main g t2 i hemp hidx hnum,
          addStyle_rows_length, addStyle_rows_length]
        refine List.Sublist.length_le ?_
        apply List.monotone_filter_right
        intro r hr
        simp only [decide_eq_true_eq] at hr ⊢
        exact le_trans h hr

/-- Witness for C5 at the concrete table with areas `[5, 15, 25]` and
thresholds `10 ≤ 30`. -/
theorem filter_threshold_monotone_witness :
    (calculate_filtered_data demoGDF 30).rows.length ≤
      (calculate_filtered_data demoGDF 10).rows.length :=
  filter_threshold_monotone demoGDF 10 30 (by decide)

/-- C6: Filtering is idempotent: running the whole filter again on
an already-filtered view, at the same threshold, returns the same
records. (The second run re-selects every row — their areas are
untouched — and overwrites the style columns with the values they
already hold.) Hypotheses: the rows positionally match the columns, and
the table does not already use the four style column names. -/
theorem filter_idempotent (g : GeoDataFrame) (t : ℚ)
    (hwf : ∀ r ∈ g.rows, r.length = g.columns.length)
    (hstyle : ∀ n ∈ styleNames, n ∉ g.columns) :
    (calculate_filtered_data (calculate_filtered_data g t) t).rows =
      (calculate_filtered_data g t).rows := by
  by_cases hemp : g.rows = []
  · rw [calc_filtered_of_empty g t hemp, calc_filtered_of_empty emptyGDF t rfl]
  · cases hidx : colIdx g.columns "area_m2" with
    | none =>
      rw [calc_filtered_of_no_column g t hemp (not_mem_of_colIdx_eq_none _ _ hidx),
        calc_filtered_of_no_column g t hemp (not_mem_of_colIdx_eq_none _ _ hidx)]
    | some i =>
      cases hnum : g.rows.all (fun r => (rowAreaQ i r).isSome) with
      | false =>
        rw [calc_filtered_of_nonnum g t i hemp hidx hnum,
          calc_filtered_of_nonnum g t i hemp hidx hnum]
      | true =>
        rw [calc_filtered_main g t i hemp hidx hnum,
          addStyle_no_style ⟨g.columns,
            g.rows.filter (fun r => decide (t ≤ (rowAreaQ i r).getD 0)), g.crs⟩ hstyle]
        set F := g.rows.filter (fun r => decide (t ≤ (rowAreaQ i r).getD 0))
        by_cases hFe : F = []
        · rw [calc_filtered_of_empty _ t (by simp [hFe])]
          simp [hFe, emptyGDF]
        · have harea : ∀ r ∈ F, rowAreaQ i (r ++ styleVals) = rowAreaQ i r := by
            intro r hr
            have hrg : r ∈ g.rows := (List.mem_filter.mp hr).1
            have hilt : i < r.length := by
              rw [hwf r hrg]; exact colIdx_lt_length hidx
            unfold rowAreaQ
            rw [List.getElem?_append_left hilt]
          have hidx2 : colIdx (g.columns ++ styleNames) "area_m2" = some i :=
            colIdx_append_left styleNames hidx
          have hnum2 : (F.map (fun r => r ++ styleVals)).all
              (fun r => (rowAreaQ i r).isSome) = true := by
            rw [List.all_eq_true]
            intro r' hr'
            rcases List.mem_map.mp hr' with ⟨r, hrF, rfl⟩
            rw [harea r hrF]
            exact (List.all_eq_true.mp hnum) r (List.mem_filter.mp hrF).1
          have hne2 : (F.map (fun r => r ++ styleVals)) ≠ [] := by simp [hFe]
          rw [calc_filtered_main ⟨g.columns ++ styleNames,
            F.map (fun r => r ++ styleVals), g.crs⟩ t i hne2 hidx2 hnum2]
          have hfilt : (F.map (fun r => r ++ styleVals)).filter
              (fun r => decide (t ≤ (rowAreaQ i r).getD 0)) =
                F.map (fun r => r ++ styleVals) := by
            rw [List.filter_eq_self]
            intro r' hr'
            rcases List.mem_map.mp hr' with ⟨r, hrF, rfl⟩
            rw [harea r hrF]
            have hrF2 : r ∈ g.rows.filter
                (fun r => decide (t ≤ (rowAreaQ i r).getD 0)) := hrF
            exact (List.mem_filter.mp hrF2).2
          have hlenF : ∀ r ∈ F, r.length = g.columns.length :=
            fun r hr => hwf r (List.mem_filter.mp hr).1
          calc (addStyle ⟨g.columns ++ styleNames,
                (F.map (fun r => r ++ styleVals)).filter
                  (fun r => decide (t ≤ (rowAreaQ i r).getD 0)), g.crs⟩).rows
              = (addStyle ⟨g.columns ++ styleNames,
                  F.map (fun r => r ++ styleVals), g.crs⟩).rows := by rw [hfilt]
            _ = F.map (fun r => r ++ styleVals) := by
                rw [addStyle_styled_noop g.columns F g.crs hstyle hlenF]

/-- Witness for C6 at the concrete table with areas `[5, 15, 25]` and
threshold 10. -/
theorem filter_idempotent_witness :
    (calculate_filtered_data (calculate_filtered_data demoGDF 10) 10).rows =
      (calculate_filtered_data demoGDF 10).rows :=
  filter_idempotent demoGDF 10 (by decide) (by decide)

/-! Maximum of a fold, for the slider bound -/

theorem le_foldl_max (l : List ℚ) (q : ℚ) : q ≤ l.foldl max q := by
  induction l generalizing q with
  | nil => exact le_refl q
  | cons x l ih => exact le_trans (le_max_left q x) (ih (max q x))

theorem mem_le_foldl_max (l : List ℚ) (q : ℚ) : ∀ x ∈ l, x ≤ l.foldl max q := by
  induction l generalizing q with
  | nil => intro x hx; exact absurd hx (List.not_mem_nil x)
  | cons y l ih =>
    intro x hx
    rw [List.foldl_cons]
    rcases List.mem_cons.mp hx with h | h
    · subst h
      exact le_trans (le_max_right q x) (le_foldl_max l (max q x))
    · exact ih (max q y) x h

theorem foldl_max_mem (l : List ℚ) (q : ℚ) : l.foldl max q = q ∨ l.foldl max q ∈ l := by
  induction l generalizing q with
  | nil => exact Or.inl rfl
  | cons x l ih =>
    rw [List.foldl_cons]
    rcases ih (max q x) with h | h
    · rcases max_choice q x with hm | hm
      · exact Or.inl (by rw [h, hm])
      · exact Or.inr (by rw [h, hm]; exact List.mem_cons_self x l)
    · exact Or.inr (List.mem_cons_of_mem x h)

/-- C8: For a non-empty loaded table with a (numeric) `area_m2`
column, the slider is configured with minimum 0, step 10, and maximum
`M * 1.1` where `M` is the maximum observed area: `M` is the area of
some record, and no record has a larger area. -/
theorem slider_spec (g : GeoDataFrame) (i : ℕ)
    (hne : g.rows ≠ [])
    (hi : colIdx g.columns "area_m2" = some i)
    (hnum : g.rows.all (fun r => (rowAreaQ i r).isSome) = true) :
    ∃ M : ℚ,
      sliderParams g = (0, 10, M * (11 / 10)) ∧
      (∃ r ∈ g.rows, rowAreaQ i r = some M) ∧
      (∀ r ∈ g.rows, ∀ q, rowAreaQ i r = some q → q ≤ M) := by
  refine ⟨columnMax g i, ?_, ?_, ?_⟩
  · have hlen : 0 < g.rows.length := List.length_pos.mpr hne
    simp [sliderParams, sliderMax, hlen, hi]
  · cases hL : g.rows.filterMap (rowAreaQ i) with
    | nil =>
      rcases List.exists_mem_of_ne_nil g.rows hne with ⟨r, hr⟩
      have h1 := List.all_eq_true.mp hnum r hr
      rcases Option.isSome_iff_exists.mp h1 with ⟨q, hq⟩
      have hmem : q ∈ g.rows.filterMap (rowAreaQ i) := List.mem_filterMap.mpr ⟨r, hr, hq⟩
      rw [hL] at hmem
      exact absurd hmem (List.not_mem_nil q)
    | cons q qs =>
      have hcm : columnMax g i = qs.foldl max q := by simp only [columnMax, hL]
      have hmemL : columnMax g i ∈ g.rows.filterMap (rowAreaQ i) := by
        rw [hcm, hL]
        rcases foldl_max_mem qs q with h | h
        · rw [h]; exact List.mem_cons_self q qs
        · exact List.mem_cons_of_mem q h
      rcases List.mem_filterMap.mp hmemL with ⟨r, hr, hq⟩
      exact ⟨r, hr, hq⟩
  · intro r hr q hq
    have hmem : q ∈ g.rows.filterMap (rowAreaQ i) := List.mem_filterMap.mpr ⟨r, hr, hq⟩
    cases hL : g.rows.filterMap (rowAreaQ i) with
    | nil => rw [hL] at hmem; exact absurd hmem (List.not_mem_nil q)
    | cons x xs =>
      have hcm : columnMax g i = xs.foldl max x := by simp only [columnMax, hL]
      rw [hcm]
      rw [hL] at hmem
      rcases List.mem_cons.mp hmem with h | h
      · subst h
        exact le_foldl_max xs q
      · exact mem_le_foldl_max xs x q h

/-- Witness for C8 at the table with areas `[5, 15, 25]` (here `M = 25`,
slider maximum `27.5`). -/
theorem slider_spec_witness :
    ∃ M : ℚ,
      sliderParams demoGDF = (0, 10, M * (11 / 10)) ∧
      (∃ r ∈ demoGDF.rows, rowAreaQ 0 r = some M) ∧
      (∀ r ∈ demoGDF.rows, ∀ q, rowAreaQ 0 r = some q → q ≤ M) :=
  slider_spec demoGDF 0 (by decide) (by decide) (by decide)

/-- C9: The process-wide frame is never mutated by the filter. In the
heap replay `runFiltered` — where pandas mask selection and `.copy()`
allocate fresh frames and the four style assignments mutate a frame in
place — the frame at the global id is unchanged by the call, and the
frame handed back is exactly the pure `calculate_filtered_data` result
(built on the copy, never on the global). -/
theorem filter_leaves_global_unchanged (h : List GeoDataFrame) (g : GeoDataFrame)
    (gid : ℕ) (t : ℚ) (hG : h[gid]? = some g) :
    (runFiltered h gid t).1[gid]? = some g ∧
    (runFiltered h gid t).1[(runFiltered h gid t).2]? =
      some (calculate_filtered_data g t) := by
  have hlt : gid < h.length := by
    by_contra hge
    rw [List.getElem?_eq_none (by omega)] at hG
    cases hG
  by_cases hemp : g.rows = []
  · have hrun : runFiltered h gid t = (h ++ [emptyGDF], h.length) := by
      simp only [runFiltered, hG]
      rw [if_pos (by simp [List.isEmpty_iff, hemp])]
    rw [hrun]
    constructor
    · rw [List.getElem?_append_left hlt]
      exact hG
    · rw [calc_filtered_of_empty g t hemp, List.getElem?_concat_length]
  · have hemp' : g.rows.isEmpty = false := by simp [List.isEmpty_iff, hemp]
    cases hidx : colIdx g.columns "area_m2" with
    | none =>
      have hrun : runFiltered h gid t = (h, gid) := by
        simp [runFiltered, hG, hemp', hidx]
      rw [hrun]
      refine ⟨hG, ?_⟩
      rw [calc_filtered_of_no_column g t hemp (not_mem_of_colIdx_eq_none _ _ hidx)]
      exact hG
    | some i =>
      cases hnum : g.rows.all (fun r => (rowAreaQ i r).isSome) with
      | false =>
        have hrun : runFiltered h gid t = (h, gid) := by
          simp [runFiltered, hG, hemp', hidx, hnum]
        rw [hrun]
        refine ⟨hG, ?_⟩
        rw [calc_filtered_of_nonnum g t i hemp hidx hnum]
        exact hG
      | true =>
        have hrun : runFiltered h gid t =
            (((h ++ [selFrame g t i]) ++ [selFrame g t i]).set (h.length + 1)
              (addStyle (selFrame g t i)), h.length + 1) := by
          simp [runFiltered, hG, hemp', hidx, hnum, selFrame]
        rw [hrun]
        constructor
        · rw [List.getElem?_set_ne (by omega)]
          rw [List.getElem?_append_left (by simp; omega)]
          rw [List.getElem?_append_left hlt]
          exact hG
        · rw [List.getElem?_set_self (by simp)]
          rw [calc_filtered_main g t i hemp hidx hnum]
          rfl

/-- Witness for C9: a one-frame heap holding the table with areas
`[5, 15, 25]`, threshold 10. -/
theorem filter_leaves_global_unchanged_witness :
    (runFiltered [demoGDF] 0 10).1[0]? = some demoGDF ∧
    (runFiltered [demoGDF] 0 10).1[(runFiltered [demoGDF] 0 10).2]? =
      some (calculate_filtered_data demoGDF 10) :=
  filter_leaves_global_unchanged [demoGDF] demoGDF 0 10 rfl

/-- C10: On the main path (non-empty table, numeric `area_m2`
column, style names not already used by the input), the filtered view
gains exactly the four style columns `fill = "#FFD700"`,
`stroke = "#FF4500"`, `stroke-width = 2`, `fill-opacity = 0.7` (appended
to the columns of the input), every filtered record carries the four
corresponding properties, and the GeoJSON serialization used by the
download button is the `FeatureCollection` whose features are built from
exactly these rows and columns — so the style attributes appear in the
`properties` of each downloaded feature. -/
theorem download_includes_style (g : GeoDataFrame) (t : ℚ) (i : ℕ)
    (hne : g.rows ≠ [])
    (hi : colIdx g.columns "area_m2" = some i)
    (hnum : g.rows.all (fun r => (rowAreaQ i r).isSome) = true)
    (hstyle : ∀ n ∈ styleNames, n ∉ g.columns)
    (hwf : ∀ r ∈ g.rows, r.length = g.columns.length) :
    (calculate_filtered_data g t).columns = g.columns ++ styleNames ∧
    (∀ r ∈ (calculate_filtered_data g t).rows,
      ("fill", Json.str "#FFD700") ∈ rowProperties (calculate_filtered_data g t).columns r ∧
      ("stroke", Json.str "#FF4500") ∈ rowProperties (calculate_filtered_data g t).columns r ∧
      ("stroke-width", Json.num 2) ∈ rowProperties (calculate_filtered_data g t).columns r ∧
      ("fill-opacity", Json.num (7 / 10)) ∈
        rowProperties (calculate_filtered_data g t).columns r) ∧
    (calculate_filtered_data g t).to_json =
      Json.obj [("type", Json.str "FeatureCollection"),
        ("features", Json.arr ((calculate_filtered_data g t).rows.map
          (rowFeature (calculate_filtered_data g t).columns)))] := by
  have hns := addStyle_no_style ⟨g.columns,
    g.rows.filter (fun r => decide (t ≤ (rowAreaQ i r).getD 0)), g.crs⟩ hstyle
  have hcols : (calculate_filtered_data g t).columns = g.columns ++ styleNames := by
    rw [calc_filtered_main g t i hne hi hnum, hns]
  have hrows : (calculate_filtered_data g t).rows =
      (g.rows.filter (fun r => decide (t ≤ (rowAreaQ i r).getD 0))).map
        (fun r => r ++ styleVals) := by
    rw [calc_filtered_main g t i hne hi hnum, hns]
  refine ⟨hcols, ?_, rfl⟩
  intro r' hr'
  rw [hrows] at hr'
  rcases List.mem_map.mp hr' with ⟨r, hrF, rfl⟩
  have hlen : r.length = g.columns.length := hwf r (List.mem_filter.mp hrF).1
  have hsplit : rowProperties (g.columns ++ styleNames) (r ++ styleVals) =
      rowProperties g.columns r ++ rowProperties styleNames styleVals := by
    unfold rowProperties
    rw [List.zip_append hlen.symm, List.filterMap_append]
  have hconcrete : rowProperties styleNames styleVals =
      [("fill", Json.str "#FFD700"), ("stroke", Json.str "#FF4500"),
       ("stroke-width", Json.num 2), ("fill-opacity", Json.num (7 / 10))] := rfl
  rw [hcols, hsplit, hconcrete]
  refine ⟨List.mem_append_right _ (List.mem_cons_self _ _),
    List.mem_append_right _ (List.mem_cons_of_mem _ (List.mem_cons_self _ _)),
    List.mem_append_right _ (List.mem_cons_of_mem _
      (List.mem_cons_of_mem _ (List.mem_cons_self _ _))),
    List.mem_append_right _ (List.mem_cons_of_mem _ (List.mem_cons_of_mem _
      (List.mem_cons_of_mem _ (List.mem_cons_self _ _))))⟩

/-- Witness for C10 at the table with areas `[5, 15, 25]`, threshold 10. -/
theorem download_includes_style_witness :
    (calculate_filtered_data demoGDF 10).columns = demoGDF.columns ++ styleNames ∧
    (∀ r ∈ (calculate_filtered_data demoGDF 10).rows,
      ("fill", Json.str "#FFD700") ∈
        rowProperties (calculate_filtered_data demoGDF 10).columns r ∧
      ("stroke", Json.str "#FF4500") ∈
        rowProperties (calculate_filtered_data demoGDF 10).columns r ∧
      ("stroke-width", Json.num 2) ∈
        rowProperties (calculate_filtered_data demoGDF 10).columns r ∧
      ("fill-opacity", Json.num (7 / 10)) ∈
        rowProperties (calculate_filtered_data demoGDF 10).columns r) ∧
    (calculate_filtered_data demoGDF 10).to_json =
      Json.obj [("type", Json.str "FeatureCollection"),
        ("features", Json.arr ((calculate_filtered_data demoGDF 10).rows.map
          (rowFeature (calculate_filtered_data demoGDF 10).columns)))] :=
  download_includes_style demoGDF 10 0 (by decide) (by decide) (by decide)
    (by decide) (by decide)

end SolarDemo
